import Mathlib

/-!
Shallow embedding of the DevOpsProject API service
(`services/api/app/main.py` and `services/api/app/database.py`).

External effects are made explicit:
* the process environment is a function `String → Option String` (`os.getenv`);
* network I/O performed by the two health probes is a `Net` record whose
  fields give the outcome (`Except.ok` = the call returned, `Except.error e`
  = the call raised the exception `e`) of each external call;
* the relational store backing the user table is a `Store` value, and the
  outcome of `db.commit()` is an explicit boolean;
* JSON response payloads are association lists of keys and `Jval` values,
  in the order the Python dict literals write them.
-/

namespace DevOpsProject

/-- The process environment, as read by `os.getenv`: a map from variable
names to their (optional) values. -/
abbrev Env : Type := String → Option String

/-- `os.getenv(key)`: `none` when the variable is unset. -/
def osGetenv (env : Env) (key : String) : Option String := env key

/-- `os.getenv(key, default)`: the default replaces an unset variable. -/
def osGetenvD (env : Env) (key default : String) : String := (env key).getD default

/-- JSON-like values appearing in the service's response payloads. -/
inductive Jval where
  | str (s : String)
  | num (n : Nat)
  | null
deriving DecidableEq, Repr

/-- How Python's `None` / a string serialises into a JSON value. -/
def optJ : Option String → Jval
  | some s => .str s
  | none => .null

/-- How a Python f-string renders an `os.getenv` result: `None` prints as
the literal string `"None"`. -/
def pyStr : Option String → String
  | some s => s
  | none => "None"

/-- The keyword arguments passed to `psycopg2.connect` by `check_database`
(main.py lines 72-77). -/
structure DbConnParams where
  host : Option String
  database : Option String
  user : Option String
  password : Option String
deriving DecidableEq, Repr

/-- `check_database` reads its connection parameters from the
`POSTGRES_*` environment variables (main.py lines 72-77). -/
def dbConnParams (env : Env) : DbConnParams :=
  { host := osGetenv env "POSTGRES_HOST"
    database := osGetenv env "POSTGRES_DB"
    user := osGetenv env "POSTGRES_USER"
    password := osGetenv env "POSTGRES_PASSWORD" }

/-- `database.py` line 6: the SQLAlchemy connection URL is built from the
`DB_*` environment variables by an f-string (an unset variable renders as
the literal `None`). -/
def DATABASE_URL (env : Env) : String :=
  "postgresql://" ++ pyStr (osGetenv env "DB_USER") ++ ":"
    ++ pyStr (osGetenv env "DB_PASSWORD") ++ "@"
    ++ pyStr (osGetenv env "DB_HOST") ++ ":5432/"
    ++ pyStr (osGetenv env "DB_NAME")

/-- The environment variables read by the health probe of the relational
store (main.py lines 72-77). -/
def probeDbVars : List String :=
  ["POSTGRES_HOST", "POSTGRES_DB", "POSTGRES_USER", "POSTGRES_PASSWORD"]

/-- The environment variables read by the CRUD session factory
(database.py line 6). -/
def sessionVars : List String :=
  ["DB_USER", "DB_PASSWORD", "DB_HOST", "DB_NAME"]

/-- Outcomes of the external network calls the health probes make.
`Except.ok ()` means the call returned normally; `Except.error e` means it
raised an exception carrying the message `e` (any exception: connection
refusal, timeout, auth failure, DNS failure, ...). -/
structure Net where
  /-- `psycopg2.connect(...)` with the given parameters. -/
  pgConnect : DbConnParams → Except String Unit
  /-- `connection.close()` on the connection just opened. -/
  pgClose : DbConnParams → Except String Unit
  /-- `redis.Redis(host=..., port=6379).ping()` against the given host. -/
  redisPing : Option String → Except String Unit

/-- The external calls a probe can attempt, for stating trace properties
(one open, one close, one ping, no retries). -/
inductive ProbeEvent where
  | pgOpen
  | pgClose
  | redisPing
deriving DecidableEq, Repr

/-- `check_database` (main.py lines 70-81), instrumented with the trace of
external calls it attempts: open a connection with the `POSTGRES_*`
parameters, then immediately close it; `try/except Exception` converts any
raised exception into the status `"error"`, a normal return of both calls
into `"ok"`. -/
def check_database_run (net : Net) (env : Env) : List ProbeEvent × String :=
  match net.pgConnect (dbConnParams env) with
  | .error _ => ([.pgOpen], "error")
  | .ok _ =>
    match net.pgClose (dbConnParams env) with
    | .error _ => ([.pgOpen, .pgClose], "error")
    | .ok _ => ([.pgOpen, .pgClose], "ok")

/-- The status string `check_database` returns. -/
def check_database (net : Net) (env : Env) : String :=
  (check_database_run net env).2

/-- `check_redis` (main.py lines 84-90), instrumented with its trace: the
`redis.Redis(...)` constructor performs no I/O; the single `ping()` call
either returns (status `"ok"`) or raises and the `try/except Exception`
yields `"error"`. -/
def check_redis_run (net : Net) (env : Env) : List ProbeEvent × String :=
  match net.redisPing (osGetenv env "REDIS_HOST") with
  | .error _ => ([.redisPing], "error")
  | .ok _ => ([.redisPing], "ok")

/-- The status string `check_redis` returns. -/
def check_redis (net : Net) (env : Env) : String :=
  (check_redis_run net env).2

/-- main.py line 101: `overall_status = "ok" if db_status == "ok" and
redis_status == "ok" else "degraded"`. -/
def overall_status (db_status redis_status : String) : String :=
  if db_status = "ok" ∧ redis_status = "ok" then "ok" else "degraded"

/-- The `/health` handler (main.py lines 96-113): runs both probes,
aggregates, and returns the dict of line 108-113 with HTTP status 200
(the hosting framework's default for a handler that returns normally).
`now` stands for the string `datetime.now(timezone.utc).isoformat()`
computed at evaluation time. -/
def health (net : Net) (env : Env) (now : String) : Nat × List (String × Jval) :=
  let db_status := check_database net env
  let redis_status := check_redis net env
  (200,
    [("status", .str (overall_status db_status redis_status)),
     ("database", .str db_status),
     ("redis", .str redis_status),
     ("timestamp", .str now)])

/-- The `/` handler (main.py lines 58-64). Note `os.getenv("APP_ENV")` is
called without a default. -/
def root (env : Env) : List (String × Jval) :=
  [("app_name", .str (osGetenvD env "APP_NAME" "platform")),
   ("environment", optJ (osGetenv env "APP_ENV")),
   ("status", .str "running")]

/-- The `/version` handler (main.py lines 147-154). -/
def version (env : Env) : List (String × Jval) :=
  [("version", .str "1.1.0"),
   ("commit", .str (osGetenvD env "BUILD_SHA" "dev")),
   ("environment", .str (osGetenvD env "APP_ENV" "unknown"))]

/-- A row of the single `users` table: `id` (integer primary key,
auto-increment) and `name` (text). -/
structure UserRow where
  id : Nat
  name : String
deriving DecidableEq, Repr

/-- The relational store backing the user table: its rows in storage
order, and the next identifier the auto-increment sequence will assign. -/
structure Store where
  rows : List UserRow
  nextId : Nat
deriving DecidableEq, Repr

/-- The dict `{"id": user.id, "name": user.name}` returned for one user
(main.py lines 126-129 and 136-141). -/
def userPayload (u : UserRow) : List (String × Jval) :=
  [("id", .num u.id), ("name", .str u.name)]

/-- The `POST /users` handler `create_user` (main.py lines 119-129):
`db.add` a new row with the given name, `db.commit()`, `db.refresh` to
read back the assigned identifier, and return `{"id", "name"}`.
`commitOk` is the outcome of the external `db.commit()` call; when the
store rejects the write the raised exception propagates unhandled (there
is no `try/except` in the handler) and no row is persisted. -/
def create_user (db : Store) (name : String) (commitOk : Bool) :
    Except String (Store × List (String × Jval)) :=
  if commitOk then
    let user : UserRow := { id := db.nextId, name := name }
    .ok ({ rows := db.rows ++ [user], nextId := db.nextId + 1 }, userPayload user)
  else
    .error "OperationalError: the store rejected the write"

/-- The `GET /users` handler `list_users` (main.py lines 132-142):
`db.query(User).all()` then one `{"id", "name"}` dict per row, in the
store's order. -/
def list_users (db : Store) : List (List (String × Jval)) :=
  db.rows.map userPayload

/-- `list_users` together with its HTTP status: the handler returns
normally for every table state, so the framework sends 200. -/
def list_users_route (db : Store) : Nat × List (List (String × Jval)) :=
  (200, list_users db)

/-- Modelled from the spec: the hosting HTTP framework (out of scope in
the source) sends 200 for a handler that returns normally and surfaces an
unhandled exception as a 500 server error response. -/
def httpStatusOf {α : Type} : Except String α → Nat
  | .ok _ => 200
  | .error _ => 500

/-- A sequence of successful `create_user` calls (each with
`commitOk := true`), returning the final store and the rows created, in
order. -/
def createMany (db : Store) : List String → Store × List UserRow
  | [] => (db, [])
  | n :: rest =>
    match create_user db n true with
    | .ok (db', _) =>
      let r := createMany db' rest
      (r.1, { id := db.nextId, name := n } :: r.2)
    | .error _ => (db, [])

/-- An environment in which every variable is unset. -/
def envAllUnset : Env := fun _ => none

/-- An environment in which only `DB_USER` is set. -/
def envOnlyDbUser : Env := fun k => if k = "DB_USER" then some "svc" else none

/-- A network in which every external call returns normally. -/
def netAllOk : Net :=
  { pgConnect := fun _ => .ok ()
    pgClose := fun _ => .ok ()
    redisPing := fun _ => .ok () }

/-- A network in which every external call raises. -/
def netAllDown : Net :=
  { pgConnect := fun _ => .error "connection refused"
    pgClose := fun _ => .error "connection refused"
    redisPing := fun _ => .error "connection refused" }

/-- An empty user table whose auto-increment sequence starts at 1. -/
def emptyStore : Store := { rows := [], nextId := 1 }

/-- A sample evaluation-time timestamp string. -/
def tsSample : String := "2026-10-12T00:00:00+00:00"

/-! ### Helper lemmas about the probes and the aggregation -/

lemma check_database_cases (net : Net) (env : Env) :
    check_database net env = "ok" ∨ check_database net env = "error" := by
  unfold check_database check_database_run
  cases net.pgConnect (dbConnParams env) with
  | error e => exact Or.inr rfl
  | ok v =>
    cases net.pgClose (dbConnParams env) with
    | error e => exact Or.inr rfl
    | ok v => exact Or.inl rfl

lemma check_redis_cases (net : Net) (env : Env) :
    check_redis net env = "ok" ∨ check_redis net env = "error" := by
  unfold check_redis check_redis_run
  cases net.redisPing (osGetenv env "REDIS_HOST") with
  | error e => exact Or.inr rfl
  | ok v => exact Or.inl rfl

lemma overall_status_cases (d r : String) :
    overall_status d r = "ok" ∨ overall_status d r = "degraded" := by
  unfold overall_status
  split_ifs with h
  · exact Or.inl rfl
  · exact Or.inr rfl

lemma health_lookup_status (net : Net) (env : Env) (now : String) :
    ((health net env now).2).lookup "status" =
      some (.str (overall_status (check_database net env) (check_redis net env))) := rfl

lemma health_lookup_database (net : Net) (env : Env) (now : String) :
    ((health net env now).2).lookup "database" =
      some (.str (check_database net env)) := rfl

lemma health_lookup_redis (net : Net) (env : Env) (now : String) :
    ((health net env now).2).lookup "redis" =
      some (.str (check_redis net env)) := rfl

/-! ### C1: health aggregation is a two-input AND reduced to ok/degraded -/

/-- Claim C1: for every pair of sub-check results, `overall_status` is
`"ok"` iff both the database check and the cache (redis) check return
`"ok"`, and `"degraded"` in every other case, with no third value; and the
`/health` payload's `status` field is exactly this aggregation of the two
sub-checks. -/
theorem C1_aggregate_iff (d r : String) (net : Net) (env : Env) (now : String) :
    (overall_status d r = "ok" ↔ (d = "ok" ∧ r = "ok")) ∧
    (overall_status d r = "ok" ∨ overall_status d r = "degraded") ∧
    ((health net env now).2).lookup "status" =
      some (.str (overall_status (check_database net env) (check_redis net env))) := by
  refine ⟨?_, overall_status_cases d r, health_lookup_status net env now⟩
  unfold overall_status
  split_ifs with h
  · exact iff_of_true rfl h
  · exact iff_of_false (by decide) h

/-- Witness for C1 at a concrete pair of sub-check results. -/
theorem C1_aggregate_iff_witness :
    overall_status "ok" "error" = "degraded" ∧ overall_status "ok" "ok" = "ok" := by
  constructor
  · rcases (C1_aggregate_iff "ok" "error" netAllOk envAllUnset tsSample).2.1 with h | h
    · exact absurd ((C1_aggregate_iff "ok" "error" netAllOk envAllUnset tsSample).1.mp h).2
        (by decide)
    · exact h
  · exact (C1_aggregate_iff "ok" "ok" netAllOk envAllUnset tsSample).1.mpr ⟨rfl, rfl⟩

/-! ### C2: /health never propagates an error -/

/-- Claim C2: for every outcome of the two dependency probes (any
exception included), `/health` returns HTTP 200; each probe converts any
exception into the status string `"error"` (so each sub-status is `"ok"`
or `"error"`), and the payload reports both sub-statuses. -/
theorem C2_health_always_200 (net : Net) (env : Env) (now : String) :
    (health net env now).1 = 200 ∧
    (check_database net env = "ok" ∨ check_database net env = "error") ∧
    (check_redis net env = "ok" ∨ check_redis net env = "error") ∧
    ((health net env now).2).lookup "database" = some (.str (check_database net env)) ∧
    ((health net env now).2).lookup "redis" = some (.str (check_redis net env)) :=
  ⟨rfl, check_database_cases net env, check_redis_cases net env,
    health_lookup_database net env now, health_lookup_redis net env now⟩

/-! ### C3: each probe makes a single attempt, no retry -/

/-- Claim C3: the database probe attempts exactly one connection open; when
the open succeeds it is followed immediately by a single close and nothing
else; the status is `"ok"` exactly when both open and close succeed and
`"error"` on any exception; the cache probe issues exactly one ping and
returns `"ok"` exactly when the ping succeeds. No retries anywhere. -/
theorem C3_single_attempt (net : Net) (env : Env) :
    (check_database_run net env).1.count .pgOpen = 1 ∧
    (check_database_run net env).1.count .pgClose ≤ 1 ∧
    (∀ v, net.pgConnect (dbConnParams env) = .ok v →
      (check_database_run net env).1 = [.pgOpen, .pgClose]) ∧
    ((check_database_run net env).2 = "ok" ↔
      net.pgConnect (dbConnParams env) = .ok () ∧
        net.pgClose (dbConnParams env) = .ok ()) ∧
    (check_redis_run net env).1.count .redisPing = 1 ∧
    ((check_redis_run net env).2 = "ok" ↔
      net.redisPing (osGetenv env "REDIS_HOST") = .ok ()) := by
  rcases hc : net.pgConnect (dbConnParams env) with e | ⟨⟩
  · rcases hp : net.redisPing (osGetenv env "REDIS_HOST") with e2 | ⟨⟩ <;>
      refine ⟨?_, ?_, ?_, ?_, ?_, ?_⟩ <;>
        simp [check_database_run, check_redis_run, hc, hp]
  · rcases hcl : net.pgClose (dbConnParams env) with e2 | ⟨⟩ <;>
      rcases hp : net.redisPing (osGetenv env "REDIS_HOST") with e3 | ⟨⟩ <;>
        refine ⟨?_, ?_, ?_, ?_, ?_, ?_⟩ <;>
          simp [check_database_run, check_redis_run, hc, hcl, hp]

/-- Witness for C3 at a concrete network where every call succeeds. -/
theorem C3_single_attempt_witness :
    (check_database_run netAllOk envAllUnset).1 = [.pgOpen, .pgClose] ∧
    (check_database_run netAllOk envAllUnset).2 = "ok" ∧
    (check_redis_run netAllOk envAllUnset).2 = "ok" :=
  ⟨(C3_single_attempt netAllOk envAllUnset).2.2.1 () rfl,
   (C3_single_attempt netAllOk envAllUnset).2.2.2.1.mpr ⟨rfl, rfl⟩,
   (C3_single_attempt netAllOk envAllUnset).2.2.2.2.2.mpr rfl⟩

/-! ### C4: the shape of the /health payload -/

/-- Counterexample to claim C4 as stated: at a concrete evaluation (all
probes succeed), the `/health` payload's keys are `status`, `database`,
`redis`, `timestamp` — there is no field named `cache`; the sub-check for
the cache store is reported under the key `redis` (main.py line 111). -/
theorem C4_counterexample :
    ((health netAllOk envAllUnset tsSample).2).map Prod.fst =
      ["status", "database", "redis", "timestamp"] ∧
    ((health netAllOk envAllUnset tsSample).2).lookup "cache" = none := by
  constructor <;> rfl

/-- Claim C4 as amended: every `/health` response payload has exactly the
fields `status` (`"ok"` or `"degraded"`), `database` (`"ok"` or
`"error"`), `redis` (`"ok"` or `"error"`, reporting the cache sub-check),
and `timestamp` (the evaluation-time instant string), in that order. -/
theorem C4_payload_fields (net : Net) (env : Env) (now : String) :
    ((health net env now).2).map Prod.fst =
      ["status", "database", "redis", "timestamp"] ∧
    (((health net env now).2).lookup "status" = some (.str "ok") ∨
      ((health net env now).2).lookup "status" = some (.str "degraded")) ∧
    (((health net env now).2).lookup "database" = some (.str "ok") ∨
      ((health net env now).2).lookup "database" = some (.str "error")) ∧
    (((health net env now).2).lookup "redis" = some (.str "ok") ∨
      ((health net env now).2).lookup "redis" = some (.str "error")) ∧
    ((health net env now).2).lookup "timestamp" = some (.str now) := by
  refine ⟨rfl, ?_, ?_, ?_, rfl⟩
  · rcases overall_status_cases (check_database net env) (check_redis net env) with h | h
    · exact Or.inl (by rw [health_lookup_status, h])
    · exact Or.inr (by rw [health_lookup_status, h])
  · rcases check_database_cases net env with h | h
    · exact Or.inl (by rw [health_lookup_database, h])
    · exact Or.inr (by rw [health_lookup_database, h])
  · rcases check_redis_cases net env with h | h
    · exact Or.inl (by rw [health_lookup_redis, h])
    · exact Or.inr (by rw [health_lookup_redis, h])

/-! ### C5: create persists one row and round-trips the name -/

/-- Claim C5: for every string name (empty and non-ASCII included), a
successful `create_user` appends exactly one new row — the old rows are
kept as a prefix, unchanged — and returns the store-assigned identifier
together with the given name byte-for-byte. -/
theorem C5_create_roundtrip (db : Store) (name : String) :
    create_user db name true =
      Except.ok
        ({ rows := db.rows ++ [{ id := db.nextId, name := name }],
           nextId := db.nextId + 1 },
         [("id", Jval.num db.nextId), ("name", Jval.str name)]) ∧
    (db.rows ++ [({ id := db.nextId, name := name } : UserRow)]).length =
      db.rows.length + 1 ∧
    [("id", Jval.num db.nextId), ("name", Jval.str name)].lookup "name" =
      some (Jval.str name) ∧
    [("id", Jval.num db.nextId), ("name", Jval.str name)].lookup "id" =
      some (Jval.num db.nextId) := by
  refine ⟨rfl, ?_, rfl, rfl⟩
  simp

/-! ### C6: list returns every row; empty table gives empty 200 -/

/-- Claim C6: for every table state, `list_users` returns one payload per
row of the user table, each row's payload included, with HTTP 200; on an
empty table it returns the empty sequence, not an error. -/
theorem C6_list_all_rows (db : Store) :
    (list_users_route db).1 = 200 ∧
    (list_users_route db).2.length = db.rows.length ∧
    (∀ u ∈ db.rows, userPayload u ∈ (list_users_route db).2) ∧
    (db.rows = [] → (list_users_route db).2 = []) := by
  refine ⟨rfl, ?_, ?_, ?_⟩
  · simp [list_users_route, list_users]
  · intro u hu
    exact List.mem_map_of_mem userPayload hu
  · intro h
    simp [list_users_route, list_users, h]

/-- Witness for C6 at the empty table. -/
theorem C6_list_all_rows_witness :
    (list_users_route emptyStore).2 = [] ∧ (list_users_route emptyStore).1 = 200 :=
  ⟨(C6_list_all_rows emptyStore).2.2.2 rfl, (C6_list_all_rows emptyStore).1⟩

/-! ### C7: a rejected write propagates as a 5xx server error -/

/-- Claim C7: when the store rejects the write, `create_user` performs no
local recovery and no retry: the exception propagates out of the handler
(the result is the error itself, carrying no new store state) and the
framework surfaces it as an HTTP 500 server error. -/
theorem C7_create_failure_propagates (db : Store) (name : String) :
    create_user db name false =
      Except.error "OperationalError: the store rejected the write" ∧
    httpStatusOf (create_user db name false) = 500 ∧
    500 ≤ httpStatusOf (create_user db name false) ∧
    httpStatusOf (create_user db name false) < 600 := by
  refine ⟨rfl, rfl, ?_, ?_⟩ <;> simp [create_user, httpStatusOf]

/-! ### C8: creates then list — the created rows all appear, ids unique -/

lemma createMany_nil (db : Store) : createMany db [] = (db, []) := rfl

lemma createMany_cons (db : Store) (n : String) (rest : List String) :
    createMany db (n :: rest) =
      ((createMany { rows := db.rows ++ [{ id := db.nextId, name := n }],
                     nextId := db.nextId + 1 } rest).1,
        { id := db.nextId, name := n } ::
          (createMany { rows := db.rows ++ [{ id := db.nextId, name := n }],
                        nextId := db.nextId + 1 } rest).2) := rfl

lemma createMany_final_rows (names : List String) (db : Store) :
    (createMany db names).1.rows = db.rows ++ (createMany db names).2 := by
  induction names generalizing db with
  | nil => simp [createMany_nil]
  | cons n rest ih =>
    rw [createMany_cons]
    simp only
    rw [ih]
    simp

lemma createMany_length (names : List String) (db : Store) :
    (createMany db names).2.length = names.length := by
  induction names generalizing db with
  | nil => simp [createMany_nil]
  | cons n rest ih =>
    rw [createMany_cons]
    simp [ih]

lemma createMany_names (names : List String) (db : Store) :
    (createMany db names).2.map UserRow.name = names := by
  induction names generalizing db with
  | nil => simp [createMany_nil]
  | cons n rest ih =>
    rw [createMany_cons]
    simp [ih]

lemma createMany_id_ge (names : List String) (db : Store) :
    ∀ u ∈ (createMany db names).2, db.nextId ≤ u.id := by
  induction names generalizing db with
  | nil => intro u hu; simp [createMany_nil] at hu
  | cons n rest ih =>
    intro u hu
    rw [createMany_cons] at hu
    rcases List.mem_cons.mp hu with h | h
    · subst h; exact Nat.le_refl _
    · have := ih { rows := db.rows ++ [{ id := db.nextId, name := n }],
                   nextId := db.nextId + 1 } u h
      simp only at this
      omega

lemma createMany_ids_nodup (names : List String) (db : Store) :
    ((createMany db names).2.map UserRow.id).Nodup := by
  induction names generalizing db with
  | nil => simp [createMany_nil]
  | cons n rest ih =>
    rw [createMany_cons]
    simp only [List.map_cons, List.nodup_cons]
    refine ⟨?_, ih _⟩
    intro hmem
    rcases List.mem_map.mp hmem with ⟨u, hu, hid⟩
    have hge := createMany_id_ge rest
      { rows := db.rows ++ [{ id := db.nextId, name := n }],
        nextId := db.nextId + 1 } u hu
    simp only at hge
    omega

/-- Claim C8: for every sequence of k successful creates with names
N1..Nk, the created rows carry those names in order, a subsequent list
returns (at least) each of those k records, and every returned record has
a unique, non-null identifier. -/
theorem C8_creates_then_list (db : Store) (names : List String) :
    (createMany db names).2.length = names.length ∧
    (createMany db names).2.map UserRow.name = names ∧
    (∀ u ∈ (createMany db names).2,
      userPayload u ∈ list_users (createMany db names).1) ∧
    ((createMany db names).2.map UserRow.id).Nodup ∧
    (∀ u ∈ (createMany db names).2,
      (userPayload u).lookup "id" ≠ some Jval.null) := by
  refine ⟨createMany_length names db, createMany_names names db, ?_,
    createMany_ids_nodup names db, ?_⟩
  · intro u hu
    unfold list_users
    rw [createMany_final_rows]
    exact List.mem_map_of_mem userPayload (List.mem_append_right _ hu)
  · intro u _ h
    simp [userPayload] at h

/-- Witness for C8: two successful creates on the empty store; the first
created row's payload appears in the subsequent list, and the two assigned
identifiers are distinct. -/
theorem C8_creates_then_list_witness :
    userPayload { id := 1, name := "Maria" } ∈
      list_users (createMany emptyStore ["Maria", "João"]).1 ∧
    ((createMany emptyStore ["Maria", "João"]).2.map UserRow.id).Nodup :=
  ⟨(C8_creates_then_list emptyStore ["Maria", "João"]).2.2.1
      { id := 1, name := "Maria" } (by decide),
   (C8_creates_then_list emptyStore ["Maria", "João"]).2.2.2.1⟩

/-! ### C9: placeholder fallbacks for unset configuration variables -/

/-- Counterexample to claim C9 as stated: with every variable unset, the
`/` root payload reports the environment tag as JSON `null`
(`os.getenv("APP_ENV")` on main.py line 62 has no default), not a literal
placeholder string. -/
theorem C9_counterexample :
    (root envAllUnset).lookup "environment" = some Jval.null ∧
    (root envAllUnset).lookup "app_name" = some (Jval.str "platform") := by
  constructor <;> rfl

/-- Claim C9 as amended: when unset, the application name falls back to
`"platform"` in `/`, the build identifier to `"dev"` and the environment
tag to `"unknown"` in `/version`; but the `/` payload reports the
environment tag as null (absent), with no placeholder. -/
theorem C9_env_fallbacks (env : Env)
    (h1 : env "APP_NAME" = none)
    (h2 : env "BUILD_SHA" = none)
    (h3 : env "APP_ENV" = none) :
    (root env).lookup "app_name" = some (Jval.str "platform") ∧
    (version env).lookup "commit" = some (Jval.str "dev") ∧
    (version env).lookup "environment" = some (Jval.str "unknown") ∧
    (root env).lookup "environment" = some Jval.null := by
  refine ⟨?_, ?_, ?_, ?_⟩ <;>
    simp [root, version, osGetenvD, osGetenv, optJ, h1, h2, h3, List.lookup]

/-- Witness for C9 at the all-unset environment. -/
theorem C9_env_fallbacks_witness :
    (root envAllUnset).lookup "app_name" = some (Jval.str "platform") ∧
    (version envAllUnset).lookup "commit" = some (Jval.str "dev") ∧
    (version envAllUnset).lookup "environment" = some (Jval.str "unknown") ∧
    (root envAllUnset).lookup "environment" = some Jval.null :=
  C9_env_fallbacks envAllUnset rfl rfl rfl

/-! ### C10: the probe and the session factory read disjoint variables -/

/-- Claim C10: the database health probe reads only the `POSTGRES_*`
variables and the CRUD session factory's URL only the `DB_*` variables;
the two sets are disjoint, the probe's connection parameters depend only
on the former, and the session URL only on the latter — so neither
constrains the other. -/
theorem C10_disjoint_config :
    (∀ k ∈ probeDbVars, k ∉ sessionVars) ∧
    (∀ e1 e2 : Env, (∀ k ∈ probeDbVars, e1 k = e2 k) →
      dbConnParams e1 = dbConnParams e2) ∧
    (∀ e1 e2 : Env, (∀ k ∈ sessionVars, e1 k = e2 k) →
      DATABASE_URL e1 = DATABASE_URL e2) := by
  refine ⟨?_, ?_, ?_⟩
  · intro k hk
    fin_cases hk <;> decide
  · intro e1 e2 h
    have h1 := h "POSTGRES_HOST" (by decide)
    have h2 := h "POSTGRES_DB" (by decide)
    have h3 := h "POSTGRES_USER" (by decide)
    have h4 := h "POSTGRES_PASSWORD" (by decide)
    unfold dbConnParams osGetenv
    rw [h1, h2, h3, h4]
  · intro e1 e2 h
    have h1 := h "DB_USER" (by decide)
    have h2 := h "DB_PASSWORD" (by decide)
    have h3 := h "DB_HOST" (by decide)
    have h4 := h "DB_NAME" (by decide)
    unfold DATABASE_URL osGetenv
    rw [h1, h2, h3, h4]

/-- Witness for C10: an all-unset environment and one where only
`DB_USER` is set agree on the probe variables, so the probe's connection
parameters coincide; and `POSTGRES_HOST` is not a session variable. -/
theorem C10_disjoint_config_witness :
    dbConnParams envAllUnset = dbConnParams envOnlyDbUser ∧
    "POSTGRES_HOST" ∉ sessionVars :=
  ⟨C10_disjoint_config.2.1 envAllUnset envOnlyDbUser
      (by intro k hk; fin_cases hk <;> rfl),
   C10_disjoint_config.1 "POSTGRES_HOST" (by decide)⟩

end DevOpsProject
